import Mathlib

/-!
Verification of the stream-over-WebSocket wrapping adapter
(`src/autobahn/twisted/websocket.py`).

Byte strings are modelled as `List Nat` with every element below 256.
Side effects performed by the adapter (sending WebSocket messages,
failing the connection, delivering data to the wrapped protocol,
logging) are modelled as explicit event traces (`List Event`).
-/

/-- Numeric value of the ASCII padding character of base64 strings. -/
def base64Pad : Nat := 61

/-- Modelled from the Python standard library `base64` module (an external
collaborator of this repository, not under `src/`): maps a sextet value
to the ASCII code of its character in the standard base64 alphabet
`A-Z a-z 0-9 + /`. -/
def encodeSextet (n : Nat) : Nat :=
  if n < 26 then 65 + n
  else if n < 52 then 97 + (n - 26)
  else if n < 62 then 48 + (n - 52)
  else if n = 62 then 43
  else 47

/-- Modelled from the Python standard library `base64` module: maps the
ASCII code of a base64-alphabet character back to its sextet value, and
any character outside the alphabet (including the padding character) to
`none`. -/
def decodeChar (c : Nat) : Option Nat :=
  if 65 ≤ c ∧ c ≤ 90 then some (c - 65)
  else if 97 ≤ c ∧ c ≤ 122 then some (c - 97 + 26)
  else if 48 ≤ c ∧ c ≤ 57 then some (c - 48 + 52)
  else if c = 43 then some 62
  else if c = 47 then some 63
  else none

/-- Characters that `binascii.a2b_base64` (non-strict mode, as called by
`base64.b64decode(s)`) does not silently discard: the base64 alphabet
plus the padding character. -/
def keepB64 (c : Nat) : Bool :=
  (decodeChar c).isSome || c == base64Pad

/-- Modelled from the Python standard library `base64.b64encode`: encodes a
byte string three bytes at a time into four base64 characters, padding a
trailing group of one byte with `==` and a trailing group of two bytes
with `=`. -/
def b64encode : List Nat → List Nat
  | [] => []
  | [a] =>
    [encodeSextet (a / 4), encodeSextet (a % 4 * 16), base64Pad, base64Pad]
  | [a, b] =>
    [encodeSextet (a / 4), encodeSextet (a % 4 * 16 + b / 16),
     encodeSextet (b % 16 * 4), base64Pad]
  | a :: b :: c :: rest =>
    encodeSextet (a / 4) :: encodeSextet (a % 4 * 16 + b / 16) ::
    encodeSextet (b % 16 * 4 + c / 64) :: encodeSextet (c % 64) ::
    b64encode rest

/-- Modelled from the Python standard library `base64.b64decode` after the
discarding of non-alphabet characters: decodes four characters at a time
into three bytes, a quantum `xx==` into one byte and a quantum `xxx=`
into two bytes, and raises (`Except.error`) on a leftover group shorter
than four characters, mirroring the `binascii.Error` CPython raises on
incorrectly padded input. -/
def decodeQuanta : List Nat → Except String (List Nat)
  | [] => Except.ok []
  | c1 :: c2 :: c3 :: c4 :: rest =>
    match decodeChar c1, decodeChar c2 with
    | some s1, some s2 =>
      if c3 = base64Pad ∧ c4 = base64Pad then
        match decodeQuanta rest with
        | Except.ok tail => Except.ok ((s1 * 4 + s2 / 16) :: tail)
        | Except.error e => Except.error e
      else if c4 = base64Pad then
        match decodeChar c3 with
        | some s3 =>
          match decodeQuanta rest with
          | Except.ok tail =>
            Except.ok ((s1 * 4 + s2 / 16) :: (s2 % 16 * 16 + s3 / 4) :: tail)
          | Except.error e => Except.error e
        | none => Except.error "Invalid base64-encoded string"
      else
        match decodeChar c3, decodeChar c4 with
        | some s3, some s4 =>
          match decodeQuanta rest with
          | Except.ok tail =>
            Except.ok ((s1 * 4 + s2 / 16) :: (s2 % 16 * 16 + s3 / 4) ::
                       (s3 % 4 * 64 + s4) :: tail)
          | Except.error e => Except.error e
        | _, _ => Except.error "Invalid base64-encoded string"
    | _, _ => Except.error "Invalid base64-encoded string"
  | _ => Except.error "Incorrect padding"

/-- Modelled from the Python standard library `base64.b64decode` (called at
`src/autobahn/twisted/websocket.py:320`): discard characters outside the
base64 alphabet, then decode quantum by quantum; an error models the
`binascii.Error` exception CPython raises. -/
def b64decode (s : List Nat) : Except String (List Nat) :=
  decodeQuanta (s.filter keepB64)

/-- Close status code `CLOSE_STATUS_CODE_PROTOCOL_ERROR` of
`autobahn.websocket.protocol.WebSocketProtocol` (external to `src/`;
the RFC 6455 value). -/
def CLOSE_STATUS_CODE_PROTOCOL_ERROR : Nat := 1002

/-- Close status code `CLOSE_STATUS_CODE_UNSUPPORTED_DATA` of
`autobahn.websocket.protocol.WebSocketProtocol` (external to `src/`;
the RFC 6455 value). -/
def CLOSE_STATUS_CODE_UNSUPPORTED_DATA : Nat := 1003

/-- Close status code `CLOSE_STATUS_CODE_INVALID_PAYLOAD` of
`autobahn.websocket.protocol.WebSocketProtocol` (external to `src/`;
the RFC 6455 value). -/
def CLOSE_STATUS_CODE_INVALID_PAYLOAD : Nat := 1007

/-- Rejection code `ConnectionDeny.NOT_ACCEPTABLE` of
`autobahn.websocket.types` (external to `src/`; the HTTP 406 value). -/
def ConnectionDeny.NOT_ACCEPTABLE : Nat := 406

/-- Rejection code `ConnectionDeny.INTERNAL_SERVER_ERROR` of
`autobahn.websocket.types` (external to `src/`; the HTTP 500 value). -/
def ConnectionDeny.INTERNAL_SERVER_ERROR : Nat := 500

/-- Transport-loss causes distinguished by
`WebSocketAdapterProtocol.connectionLost`: the Twisted exception classes
`ConnectionDone`, `ConnectionAborted` and `ConnectionLost` (the latter
carrying the optional diagnostic message the source extracts from
`reason.value.message` or `reason.value.args`), plus any other exception
type with its type name and message. -/
inductive TwistedFailure where
  | connectionDone : TwistedFailure
  | connectionAborted : TwistedFailure
  | connectionLostWith : Option String → TwistedFailure
  | otherError : String → String → TwistedFailure
deriving DecidableEq

/-- Observable side effects of the adapter code: WebSocket-level sends and
connection failures, calls delivered to the wrapped stream protocol
(`_proto`), calls into the underlying WebSocket protocol machinery, log
output, and a failed `assert` statement. -/
inductive Event where
  | sendMessage (payload : List Nat) (isBinary : Bool) : Event
  | failConnection (code : Nat) (reason : String) : Event
  | sendClose : Event
  | dataReceived (payload : List Nat) : Event
  | protoConnectionMade : Event
  | protoConnectionLost (reason : Option TwistedFailure) : Event
  | baseConnectionLost (reason : TwistedFailure) : Event
  | logMsg (message : String) : Event
  | assertionError : Event
deriving DecidableEq

/-- Tests whether an event is pure log output. -/
def Event.isLog : Event → Bool
  | Event.logMsg _ => true
  | _ => false

/-- Python values that might be passed to `write`, distinguished by their
runtime type: only the `bytes` case satisfies `type(data) == bytes`. -/
inductive PyValue where
  | bytes (b : List Nat) : PyValue
  | str (s : String) : PyValue
  | bytearray (b : List Nat) : PyValue
  | memoryview (b : List Nat) : PyValue
deriving DecidableEq

/-- Tests whether the Python value has runtime type exactly `bytes`. -/
def PyValue.isBytes : PyValue → Bool
  | PyValue.bytes _ => true
  | _ => false

/-- Result of the server-role branch of `WrappingWebSocketAdapter.onConnect`:
either the selected subprotocol together with the `_binaryMode` flag the
adapter records, or the `ConnectionDeny` exception it raises. -/
inductive HandshakeResult where
  | accept (subprotocol : String) (binaryMode : Bool) : HandshakeResult
  | deny (code : Nat) (reason : String) : HandshakeResult
deriving DecidableEq

/-- Exceptions that the user-supplied `onConnect` callback may raise into
`WebSocketServerProtocol._onConnect`: a `ConnectionDeny` with code and
reason, or any other exception, carrying its `str()` description. -/
inductive PyException where
  | connectionDeny (code : Nat) (reason : String) : PyException
  | otherExc (description : String) : PyException
deriving DecidableEq

/-- Terminal handshake action taken by the errback of
`WebSocketServerProtocol._onConnect`: a `failHandshake(reason, code)`
call on the underlying WebSocket protocol. -/
inductive HandshakeOutcome where
  | failHandshake (reason : String) (code : Nat) : HandshakeOutcome
deriving DecidableEq

/-- Python `"%s" % l` rendering of a list of strings, as used in the
rejection reasons of `WrappingWebSocketAdapter.onConnect`. -/
def pyListRepr (l : List String) : String :=
  "[" ++ String.intercalate ", " (l.map (fun s => "\x27" ++ s ++ "\x27")) ++ "]"

/-- Reason of the `ConnectionDeny` raised by the server-role branch of
`WrappingWebSocketAdapter.onConnect` (line 301 of the source). -/
def serverDenyReason (subprotocols : List String) : String :=
  "this server only speaks " ++ pyListRepr subprotocols ++ " WebSocket subprotocols"

/-- Reason of the `failConnection` issued by the client-role branch of
`WrappingWebSocketAdapter.onConnect` (line 305 of the source). -/
def clientFailReason (subprotocols : List String) : String :=
  "this client only speaks " ++ pyListRepr subprotocols ++ " WebSocket subprotocols"

/-- Configured subprotocol list of `WrappingWebSocketServerFactory.__init__`
(lines 391-393 of the source): `['binary', 'base64']`, extended by one
caller-supplied extra name when given (`WrappingWebSocketClientFactory`
builds the same list). -/
def WrappingWebSocketServerFactory.subprotocols (extra : Option String) : List String :=
  ["binary", "base64"] ++ (match extra with | some s => [s] | none => [])

/-- Server-role branch of `WrappingWebSocketAdapter.onConnect` (lines
296-301 of the source): walk the peer-offered subprotocol list in order,
accept the first member of the factory's `_subprotocols` (recording
`_binaryMode = (p != 'base64')`), and raise
`ConnectionDeny(NOT_ACCEPTABLE, ...)` when the walk finds none. -/
def WrappingWebSocketAdapter.serverOnConnect (subprotocols : List String) :
    List String → HandshakeResult
  | [] => HandshakeResult.deny ConnectionDeny.NOT_ACCEPTABLE (serverDenyReason subprotocols)
  | p :: ps =>
    if p ∈ subprotocols then HandshakeResult.accept p (decide (p ≠ "base64"))
    else WrappingWebSocketAdapter.serverOnConnect subprotocols ps

/-- Client-role branch of `WrappingWebSocketAdapter.onConnect` (lines
302-306 of the source): if the server-chosen subprotocol is not in the
factory's `_subprotocols`, call `failConnection` with a protocol-error
close; in every case then record `_binaryMode = (protocol != 'base64')`
(the source has no early return after `failConnection`). The pair holds
the emitted events and the recorded `_binaryMode`. -/
def WrappingWebSocketAdapter.clientOnConnect (subprotocols : List String)
    (responseProtocol : String) : List Event × Bool :=
  ((if responseProtocol ∈ subprotocols then []
    else [Event.failConnection CLOSE_STATUS_CODE_PROTOCOL_ERROR
            (clientFailReason subprotocols)]),
   decide (responseProtocol ≠ "base64"))

/-- Translation of `WrappingWebSocketAdapter.onMessage` (lines 314-324 of
the source). Note that in the decode-error branch the source calls
`failConnection` inside the `except` clause and then falls through to
`self._proto.dataReceived(payload)` with `payload` still bound to the
undecoded message payload. -/
def WrappingWebSocketAdapter.onMessage (binaryMode : Bool) (payload : List Nat)
    (isBinary : Bool) : List Event :=
  if isBinary ≠ binaryMode then
    [Event.failConnection CLOSE_STATUS_CODE_UNSUPPORTED_DATA
       "message payload type does not match the negotiated subprotocol"]
  else if !isBinary then
    match b64decode payload with
    | Except.ok decoded => [Event.dataReceived decoded]
    | Except.error e =>
      [Event.failConnection CLOSE_STATUS_CODE_INVALID_PAYLOAD
         ("message payload base64 decoding error: " ++ e),
       Event.dataReceived payload]
  else
    [Event.dataReceived payload]

/-- Translation of `WrappingWebSocketAdapter.onClose` (lines 327-328 of the
source): deliver `connectionLost(None)` to the wrapped protocol,
ignoring `wasClean`, `code` and `reason`. -/
def WrappingWebSocketAdapter.onClose (_wasClean : Bool) (_code : Option Nat)
    (_reason : Option String) : List Event :=
  [Event.protoConnectionLost none]

/-- Translation of `WrappingWebSocketAdapter.write` (lines 330-338 of the
source): assert `type(data) == bytes`, then send the buffer as one
binary message in binary mode, or its base64 encoding as one text
message otherwise. A failed assertion raises before anything is sent. -/
def WrappingWebSocketAdapter.write (binaryMode : Bool) (data : PyValue) : List Event :=
  match data with
  | PyValue.bytes b =>
    if binaryMode then [Event.sendMessage b true]
    else [Event.sendMessage (b64encode b) false]
  | _ => [Event.assertionError]

/-- Translation of `WrappingWebSocketAdapter.writeSequence` (lines 340-343
of the source): `write` each element in order; an `AssertionError`
raised by `write` propagates and aborts the loop. -/
def WrappingWebSocketAdapter.writeSequence (binaryMode : Bool) :
    List PyValue → List Event
  | [] => []
  | d :: ds =>
    if d.isBytes then
      WrappingWebSocketAdapter.write binaryMode d ++
        WrappingWebSocketAdapter.writeSequence binaryMode ds
    else
      WrappingWebSocketAdapter.write binaryMode d

/-- One outbound call issued by the wrapped protocol toward its transport:
a `write` of one byte chunk or a `writeSequence` of a list of chunks. -/
inductive WriteCall where
  | write (chunk : List Nat) : WriteCall
  | writeSeq (chunks : List (List Nat)) : WriteCall

/-- Byte chunks issued by one outbound call, in order. -/
def WriteCall.chunks : WriteCall → List (List Nat)
  | WriteCall.write b => [b]
  | WriteCall.writeSeq bs => bs

/-- Byte chunks issued by a sequence of outbound calls, in order. -/
def issuedChunks : List WriteCall → List (List Nat)
  | [] => []
  | c :: cs => WriteCall.chunks c ++ issuedChunks cs

/-- Events emitted by the adapter for a sequence of outbound calls, each
chunk passed as a Python `bytes` value. -/
def runWriteCalls (binaryMode : Bool) : List WriteCall → List Event
  | [] => []
  | WriteCall.write b :: cs =>
    WrappingWebSocketAdapter.write binaryMode (PyValue.bytes b) ++
      runWriteCalls binaryMode cs
  | WriteCall.writeSeq bs :: cs =>
    WrappingWebSocketAdapter.writeSequence binaryMode (bs.map PyValue.bytes) ++
      runWriteCalls binaryMode cs

/-- Translation of `WebSocketAdapterProtocol.connectionLost` (lines 102-133
of the source): classify the loss cause into one of four buckets purely
to choose a log line, then call `self._connectionLost(reason)` on the
underlying WebSocket protocol machinery. A `ConnectionLost` whose
extracted message is absent or falsy (the empty string) logs the
message-less line. -/
def WebSocketAdapterProtocol.connectionLost (peer : String)
    (reason : TwistedFailure) : List Event :=
  (match reason with
   | TwistedFailure.connectionDone =>
     [Event.logMsg ("Connection to/from " ++ peer ++ " was closed cleanly")]
   | TwistedFailure.connectionAborted =>
     [Event.logMsg ("Connection to/from " ++ peer ++ " was aborted locally")]
   | TwistedFailure.connectionLostWith msg =>
     match msg with
     | some m =>
       if m = "" then
         [Event.logMsg ("Connection to/from " ++ peer ++
            " was lost in a non-clean fashion")]
       else
         [Event.logMsg ("Connection to/from " ++ peer ++
            " was lost in a non-clean fashion: " ++ m)]
     | none =>
       [Event.logMsg ("Connection to/from " ++ peer ++
          " was lost in a non-clean fashion")]
   | TwistedFailure.otherError t m =>
     [Event.logMsg ("Connection to/from " ++ peer ++ " lost (" ++ t ++ "): " ++ m)]
  ) ++ [Event.baseConnectionLost reason]

/-- Translation of the `forwardError` errback of
`WebSocketServerProtocol._onConnect` (lines 202-208 of the source): a
`ConnectionDeny` raised by the `onConnect` callback fails the handshake
with that deny's own reason and code; any other exception is logged
(only when `debug` is set) and fails the handshake with reason
`"Internal server error: " + str(exception)` and code
`ConnectionDeny.INTERNAL_SERVER_ERROR`. -/
def WebSocketServerProtocol.forwardError (debug : Bool) (failure : PyException) :
    List Event × HandshakeOutcome :=
  match failure with
  | PyException.connectionDeny code reason =>
    ([], HandshakeOutcome.failHandshake reason code)
  | PyException.otherExc desc =>
    ((if debug then
        [Event.logMsg ("Unexpected exception in onConnect [\x27" ++ desc ++ "\x27]")]
      else []),
     HandshakeOutcome.failHandshake ("Internal server error: " ++ desc)
       ConnectionDeny.INTERNAL_SERVER_ERROR)

/-- Helper: each sextet below 64 decodes back from its alphabet character,
which is never the padding character. -/
theorem b64_char_roundtrip :
    ∀ s, s < 64 → decodeChar (encodeSextet s) = some s ∧ encodeSextet s ≠ base64Pad := by
  decide

theorem keepB64_encodeSextet (s : Nat) (h : s < 64) : keepB64 (encodeSextet s) = true := by
  simp [keepB64, (b64_char_roundtrip s h).1]

theorem keepB64_pad : keepB64 base64Pad = true := by decide

theorem decodeQuanta_pad2 (c1 c2 s1 s2 : Nat) (rest : List Nat)
    (h1 : decodeChar c1 = some s1) (h2 : decodeChar c2 = some s2)
    (hr : decodeQuanta rest = Except.ok []) :
    decodeQuanta (c1 :: c2 :: base64Pad :: base64Pad :: rest) =
      Except.ok [s1 * 4 + s2 / 16] := by
  simp [decodeQuanta, h1, h2, hr]

theorem decodeQuanta_pad1 (c1 c2 c3 s1 s2 s3 : Nat) (rest : List Nat)
    (h1 : decodeChar c1 = some s1) (h2 : decodeChar c2 = some s2)
    (h3 : decodeChar c3 = some s3) (hne3 : c3 ≠ base64Pad)
    (hr : decodeQuanta rest = Except.ok []) :
    decodeQuanta (c1 :: c2 :: c3 :: base64Pad :: rest) =
      Except.ok [s1 * 4 + s2 / 16, s2 % 16 * 16 + s3 / 4] := by
  simp [decodeQuanta, h1, h2, h3, hne3, hr]

theorem decodeQuanta_full (c1 c2 c3 c4 s1 s2 s3 s4 : Nat) (rest : List Nat)
    (h1 : decodeChar c1 = some s1) (h2 : decodeChar c2 = some s2)
    (h3 : decodeChar c3 = some s3) (h4 : decodeChar c4 = some s4)
    (hne3 : c3 ≠ base64Pad) (hne4 : c4 ≠ base64Pad) :
    decodeQuanta (c1 :: c2 :: c3 :: c4 :: rest) =
      match decodeQuanta rest with
      | Except.ok tail =>
        Except.ok ((s1 * 4 + s2 / 16) :: (s2 % 16 * 16 + s3 / 4) ::
                   (s3 % 4 * 64 + s4) :: tail)
      | Except.error e => Except.error e := by
  have hcond : ¬(c3 = base64Pad ∧ c4 = base64Pad) := fun hh => hne3 hh.1
  simp [decodeQuanta, h1, h2, h3, h4, hcond, hne4]

theorem b64_roundtrip (bs : List Nat) :
    (∀ x ∈ bs, x < 256) → b64decode (b64encode bs) = Except.ok bs := by
  unfold b64decode
  induction bs using b64encode.induct with
  | case1 => intro h; rfl
  | case2 a =>
    intro h
    have ha : a < 256 := h a (by simp)
    have h1 : a / 4 < 64 := by omega
    have h2 : a % 4 * 16 < 64 := by omega
    have c1 := b64_char_roundtrip _ h1
    have c2 := b64_char_roundtrip _ h2
    simp only [b64encode, List.filter, keepB64_encodeSextet _ h1,
      keepB64_encodeSextet _ h2, keepB64_pad]
    rw [decodeQuanta_pad2 _ _ _ _ [] c1.1 c2.1 rfl]
    have hbyte : a / 4 * 4 + a % 4 * 16 / 16 = a := by omega
    rw [hbyte]
  | case3 a b =>
    intro h
    have ha : a < 256 := h a (by simp)
    have hb : b < 256 := h b (by simp)
    have h1 : a / 4 < 64 := by omega
    have h2 : a % 4 * 16 + b / 16 < 64 := by omega
    have h3 : b % 16 * 4 < 64 := by omega
    have c1 := b64_char_roundtrip _ h1
    have c2 := b64_char_roundtrip _ h2
    have c3 := b64_char_roundtrip _ h3
    simp only [b64encode, List.filter, keepB64_encodeSextet _ h1,
      keepB64_encodeSextet _ h2, keepB64_encodeSextet _ h3, keepB64_pad]
    rw [decodeQuanta_pad1 _ _ _ _ _ _ [] c1.1 c2.1 c3.1 c3.2 rfl]
    have hb1 : a / 4 * 4 + (a % 4 * 16 + b / 16) / 16 = a := by omega
    have hb2 : (a % 4 * 16 + b / 16) % 16 * 16 + b % 16 * 4 / 4 = b := by omega
    rw [hb1, hb2]
  | case4 a b c rest ih =>
    intro h
    have ha : a < 256 := h a (by simp)
    have hb : b < 256 := h b (by simp)
    have hc : c < 256 := h c (by simp)
    have h1 : a / 4 < 64 := by omega
    have h2 : a % 4 * 16 + b / 16 < 64 := by omega
    have h3 : b % 16 * 4 + c / 64 < 64 := by omega
    have h4 : c % 64 < 64 := by omega
    have c1 := b64_char_roundtrip _ h1
    have c2 := b64_char_roundtrip _ h2
    have c3 := b64_char_roundtrip _ h3
    have c4 := b64_char_roundtrip _ h4
    have ihr := ih (fun x hx => h x (by simp [hx]))
    simp only [b64encode, List.filter, keepB64_encodeSextet _ h1,
      keepB64_encodeSextet _ h2, keepB64_encodeSextet _ h3,
      keepB64_encodeSextet _ h4] at ihr ⊢
    rw [decodeQuanta_full _ _ _ _ _ _ _ _ _ c1.1 c2.1 c3.1 c4.1 c3.2 c4.2, ihr]
    have hb1 : a / 4 * 4 + (a % 4 * 16 + b / 16) / 16 = a := by omega
    have hb2 : (a % 4 * 16 + b / 16) % 16 * 16 + (b % 16 * 4 + c / 64) / 4 = b := by
      omega
    have hb3 : (b % 16 * 4 + c / 64) % 4 * 64 + c % 64 = c := by omega
    rw [hb1, hb2, hb3]

theorem serverOnConnect_skip (subprotocols l1 rest : List String)
    (h1 : ∀ q ∈ l1, q ∉ subprotocols) :
    WrappingWebSocketAdapter.serverOnConnect subprotocols (l1 ++ rest) =
      WrappingWebSocketAdapter.serverOnConnect subprotocols rest := by
  induction l1 with
  | nil => rfl
  | cons q l1 ih =>
    have hq : q ∉ subprotocols := h1 q (by simp)
    simp only [List.cons_append, WrappingWebSocketAdapter.serverOnConnect, if_neg hq]
    exact ih (fun r hr => h1 r (by simp [hr]))

theorem serverOnConnect_none (subprotocols offered : List String)
    (h : ∀ q ∈ offered, q ∉ subprotocols) :
    WrappingWebSocketAdapter.serverOnConnect subprotocols offered =
      HandshakeResult.deny ConnectionDeny.NOT_ACCEPTABLE
        (serverDenyReason subprotocols) := by
  induction offered with
  | nil => rfl
  | cons q qs ih =>
    have hq : q ∉ subprotocols := h q (by simp)
    simp only [WrappingWebSocketAdapter.serverOnConnect, if_neg hq]
    exact ih (fun r hr => h r (by simp [hr]))

/-- C1: on the server role, `onConnect` selects the first peer-offered
subprotocol that is a member of the configured set (recording
binary-mode as "selected name is not base64"), and denies the handshake
with `ConnectionDeny.NOT_ACCEPTABLE` and a reason naming the configured
set when no offered name is a member. -/
theorem C1_server_subprotocol_negotiation (subprotocols l1 l2 : List String)
    (p : String) (h1 : ∀ q ∈ l1, q ∉ subprotocols) (h2 : p ∈ subprotocols) :
    WrappingWebSocketAdapter.serverOnConnect subprotocols (l1 ++ p :: l2) =
      HandshakeResult.accept p (decide (p ≠ "base64")) ∧
    ∀ offered : List String, (∀ q ∈ offered, q ∉ subprotocols) →
      WrappingWebSocketAdapter.serverOnConnect subprotocols offered =
        HandshakeResult.deny ConnectionDeny.NOT_ACCEPTABLE
          (serverDenyReason subprotocols) := by
  constructor
  · rw [serverOnConnect_skip subprotocols l1 (p :: l2) h1]
    simp [WrappingWebSocketAdapter.serverOnConnect, h2]
  · exact fun offered hoff => serverOnConnect_none subprotocols offered hoff

/-- Witness for C1 at the configured set `['binary', 'base64']` with the
peer offering `['foo', 'base64']` (accepted as base64, text mode) and
`['foo']` alone (denied). -/
theorem C1_server_subprotocol_negotiation_witness :
    WrappingWebSocketAdapter.serverOnConnect ["binary", "base64"]
        (["foo"] ++ "base64" :: []) =
      HandshakeResult.accept "base64" false ∧
    WrappingWebSocketAdapter.serverOnConnect ["binary", "base64"] ["foo"] =
      HandshakeResult.deny ConnectionDeny.NOT_ACCEPTABLE
        (serverDenyReason ["binary", "base64"]) := by
  have h := C1_server_subprotocol_negotiation ["binary", "base64"] ["foo"] []
    "base64" (by decide) (by decide)
  exact ⟨h.1.trans (by decide), h.2 ["foo"] (by decide)⟩

/-- C2: for every raw byte buffer, binary mode emits the buffer unchanged
as one binary message, base64 mode emits its base64 encoding as one text
message, and base64 decoding inverts base64 encoding (round-trip law). -/
theorem C2_base64_roundtrip_law (b : List Nat) (h : ∀ x ∈ b, x < 256) :
    WrappingWebSocketAdapter.write true (PyValue.bytes b) =
      [Event.sendMessage b true] ∧
    WrappingWebSocketAdapter.write false (PyValue.bytes b) =
      [Event.sendMessage (b64encode b) false] ∧
    b64decode (b64encode b) = Except.ok b :=
  ⟨rfl, rfl, b64_roundtrip b h⟩

/-- Witness for C2 at a buffer that is empty-prefixed, non-UTF8 bytes. -/
theorem C2_base64_roundtrip_law_witness :
    b64decode (b64encode [0, 255, 254, 7]) = Except.ok [0, 255, 254, 7] :=
  (C2_base64_roundtrip_law [0, 255, 254, 7] (by decide)).2.2

theorem writeSequence_map_bytes (mode : Bool) (bs : List (List Nat)) :
    WrappingWebSocketAdapter.writeSequence mode (bs.map PyValue.bytes) =
      bs.map (fun b => Event.sendMessage (if mode then b else b64encode b) mode) := by
  induction bs with
  | nil => rfl
  | cons b rest ih =>
    simp only [List.map_cons, WrappingWebSocketAdapter.writeSequence,
      PyValue.isBytes, if_pos]
    rw [ih]
    cases mode <;> simp [WrappingWebSocketAdapter.write]

/-- C3: a finite sequence of `write` / `writeSequence` calls over byte
chunks emits exactly one WebSocket message per chunk (the chunk itself
as a binary message in binary mode, its base64 encoding as a text
message otherwise), in issue order, with no merging, splitting or
reordering; in particular a 0-byte chunk yields exactly one empty
message of the negotiated kind. -/
theorem C3_one_write_one_message (mode : Bool) (calls : List WriteCall) :
    runWriteCalls mode calls =
      (issuedChunks calls).map
        (fun b => Event.sendMessage (if mode then b else b64encode b) mode) := by
  induction calls with
  | nil => rfl
  | cons c rest ih =>
    cases c with
    | write b =>
      simp only [runWriteCalls, issuedChunks, WriteCall.chunks, List.map_append, ih]
      cases mode <;> simp [WrappingWebSocketAdapter.write]
    | writeSeq bs =>
      simp only [runWriteCalls, issuedChunks, WriteCall.chunks, List.map_append, ih,
        writeSequence_map_bytes]

/-- C4: a received message whose binary/text kind differs from the
negotiated binary-mode makes `onMessage` fail the connection with the
unsupported-data close status, and nothing is delivered to the wrapped
protocol. -/
theorem C4_kind_mismatch_fails (mode isBinary : Bool) (payload : List Nat)
    (h : isBinary ≠ mode) :
    WrappingWebSocketAdapter.onMessage mode payload isBinary =
      [Event.failConnection CLOSE_STATUS_CODE_UNSUPPORTED_DATA
         "message payload type does not match the negotiated subprotocol"] := by
  simp [WrappingWebSocketAdapter.onMessage, h]

/-- Witness for C4: a binary message received while base64 mode is
negotiated. -/
theorem C4_kind_mismatch_fails_witness :
    WrappingWebSocketAdapter.onMessage false [1, 2, 3] true =
      [Event.failConnection CLOSE_STATUS_CODE_UNSUPPORTED_DATA
         "message payload type does not match the negotiated subprotocol"] :=
  C4_kind_mismatch_fails false true [1, 2, 3] (by decide)

/-- C5: evaluation of `onMessage` in base64 mode at the one-character text
payload `b"a"` (ASCII 97), which `b64decode` rejects. The connection is
failed with the invalid-payload close status, but the source then falls
through and still delivers the undecoded payload to the wrapped
protocol's `dataReceived` — contradicting the claim that garbage bytes
are never delivered. -/
theorem C5_decode_failure_still_forwards_payload :
    WrappingWebSocketAdapter.onMessage false [97] false =
      [Event.failConnection CLOSE_STATUS_CODE_INVALID_PAYLOAD
         "message payload base64 decoding error: Incorrect padding",
       Event.dataReceived [97]] := by
  decide

/-- C6: on the client role, a server-chosen subprotocol outside the
configured set makes `onConnect` fail the connection with the
protocol-error close status citing the configured set; a member records
binary-mode as "chosen name is not base64" without failing. -/
theorem C6_client_subprotocol_verification (subprotocols : List String)
    (chosen : String) :
    (chosen ∉ subprotocols →
      WrappingWebSocketAdapter.clientOnConnect subprotocols chosen =
        ([Event.failConnection CLOSE_STATUS_CODE_PROTOCOL_ERROR
            (clientFailReason subprotocols)],
         decide (chosen ≠ "base64"))) ∧
    (chosen ∈ subprotocols →
      WrappingWebSocketAdapter.clientOnConnect subprotocols chosen =
        ([], decide (chosen ≠ "base64"))) := by
  constructor
  · intro h; simp [WrappingWebSocketAdapter.clientOnConnect, h]
  · intro h; simp [WrappingWebSocketAdapter.clientOnConnect, h]

/-- Witness for C6 at the configured set `['binary', 'base64']` with the
server choosing `'foo'` (rejected) and `'base64'` (accepted, text
mode). -/
theorem C6_client_subprotocol_verification_witness :
    WrappingWebSocketAdapter.clientOnConnect ["binary", "base64"] "foo" =
      ([Event.failConnection CLOSE_STATUS_CODE_PROTOCOL_ERROR
          (clientFailReason ["binary", "base64"])], true) ∧
    WrappingWebSocketAdapter.clientOnConnect ["binary", "base64"] "base64" =
      ([], false) :=
  ⟨((C6_client_subprotocol_verification ["binary", "base64"] "foo").1
      (by decide)).trans (by decide),
   ((C6_client_subprotocol_verification ["binary", "base64"] "base64").2
      (by decide)).trans (by decide)⟩

/-- C7: receipt of a WebSocket close, for every combination of clean flag,
status code and reason, delivers exactly one `connectionLost(None)` to
the wrapped protocol; the close code and reason are never passed
through. -/
theorem C7_close_delivers_single_lost (wasClean : Bool) (code : Option Nat)
    (reason : Option String) :
    WrappingWebSocketAdapter.onClose wasClean code reason =
      [Event.protoConnectionLost none] := rfl

/-- C8: whatever classification bucket the transport-loss reason falls
into, the non-logging calls performed by `connectionLost` are exactly
one `_connectionLost(reason)` invocation — classification affects only
log output. -/
theorem C8_loss_classification_diagnostics_only (peer : String)
    (reason : TwistedFailure) :
    (WebSocketAdapterProtocol.connectionLost peer reason).filter
        (fun e => !e.isLog) = [Event.baseConnectionLost reason] := by
  cases reason with
  | connectionDone => rfl
  | connectionAborted => rfl
  | connectionLostWith msg =>
    cases msg with
    | none => rfl
    | some m =>
      rcases eq_or_ne m "" with rfl | hm
      · rfl
      · simp only [WebSocketAdapterProtocol.connectionLost, if_neg hm]
        rfl
  | otherError t m => rfl

/-- C9 counterexample: the rejection reason sent to the remote peer for a
non-`ConnectionDeny` callback exception is `"Internal server error: "`
followed by the exception's description, so it both contains the
internal diagnostic detail and varies with it — the claim that the
reason is generic and does not leak the detail is false. -/
theorem C9_internal_error_leaks_detail :
    (WebSocketServerProtocol.forwardError false
        (PyException.otherExc "KeyError: secret")).2 =
      HandshakeOutcome.failHandshake "Internal server error: KeyError: secret"
        ConnectionDeny.INTERNAL_SERVER_ERROR ∧
    (WebSocketServerProtocol.forwardError false (PyException.otherExc "A")).2 ≠
      (WebSocketServerProtocol.forwardError false (PyException.otherExc "B")).2 := by
  decide

/-- C9 (amended): a non-`ConnectionDeny` exception raised by the server
`onConnect` callback rejects the handshake with
`ConnectionDeny.INTERNAL_SERVER_ERROR` and the reason
`"Internal server error: "` followed by the exception's description
(the detail is thus included in the rejection sent to the peer); the
exception is logged only when debug is enabled; a `ConnectionDeny`
rejects with that deny's own code and reason. -/
theorem C9_callback_fault_rejection (debug : Bool) (desc : String)
    (code : Nat) (reason : String) :
    (WebSocketServerProtocol.forwardError debug (PyException.otherExc desc)).2 =
      HandshakeOutcome.failHandshake ("Internal server error: " ++ desc)
        ConnectionDeny.INTERNAL_SERVER_ERROR ∧
    (WebSocketServerProtocol.forwardError false (PyException.otherExc desc)).1 =
      [] ∧
    WebSocketServerProtocol.forwardError debug
        (PyException.connectionDeny code reason) =
      ([], HandshakeOutcome.failHandshake reason code) := by
  refine ⟨?_, rfl, rfl⟩
  cases debug <;> rfl

/-- C10: `write` accepts only values of runtime type exactly `bytes`; any
other value fails the assertion before anything is encoded or sent, and
under the precondition that the value is `bytes` the assertion branch is
unreachable. -/
theorem C10_write_requires_bytes (mode : Bool) (v : PyValue) :
    (v.isBytes = false →
      WrappingWebSocketAdapter.write mode v = [Event.assertionError]) ∧
    (v.isBytes = true →
      Event.assertionError ∉ WrappingWebSocketAdapter.write mode v) := by
  constructor
  · intro h
    cases v with
    | bytes b => simp [PyValue.isBytes] at h
    | str s => rfl
    | bytearray b => rfl
    | memoryview b => rfl
  · intro h
    cases v with
    | bytes b => cases mode <;> simp [WrappingWebSocketAdapter.write]
    | str s => simp [PyValue.isBytes] at h
    | bytearray b => simp [PyValue.isBytes] at h
    | memoryview b => simp [PyValue.isBytes] at h

/-- Witness for C10: a `str` argument fails the assertion and a `bytes`
argument never does. -/
theorem C10_write_requires_bytes_witness :
    WrappingWebSocketAdapter.write true (PyValue.str "abc") =
      [Event.assertionError] ∧
    Event.assertionError ∉
      WrappingWebSocketAdapter.write true (PyValue.bytes [0, 255]) :=
  ⟨(C10_write_requires_bytes true (PyValue.str "abc")).1 rfl,
   (C10_write_requires_bytes true (PyValue.bytes [0, 255])).2 rfl⟩
